import Mathlib

/-!
Shallow embedding of src/src/ydlidar.rs (ydlidar-sdk-rust), a safe Rust wrapper
around a native LiDAR SDK.

Modelling decisions:
* Rust strings (&str, String, CString contents) are byte lists (List Nat, bytes < 256
  in practice; the code never inspects byte values except for interior NUL and UTF-8
  checks, which are modelled explicitly).
* The two owned CString fields (lidar_port, ignore_array) live in an explicit heap:
  each CString allocation gets a fresh id, reassignment allocates the new buffer and
  frees the old one, exactly as Rust drop semantics do.  A pointer is either the
  address of a heap allocation (CString::as_ptr) or a stack temporary holding the
  bytes of a numeric value at call time.
* f32 values are carried as their 32-bit IEEE-754 bit patterns (Nat); the wrapper
  never computes with floats, it only forwards their 4 raw bytes.
* i32 values are Int, marshalled as 4 little-endian two's-complement bytes.
* The native SDK is opaque: a NativeEnv records whether each boolean native call
  succeeds, the scan data doProcessSimple would produce, and the byte content behind
  the pointer DescribeError returns.  Every native call an operation performs is
  recorded in a trace (List NativeCall).
* A Rust panic (unwrap on Err/None, the panic! in set_string_property) is
  Except.error carrying the message; the StepResult also carries the wrapper state
  and the native-call trace at the moment of the panic, so that claims about
  "no call was made / no field was updated before the panic" are statable.
-/

/-- Little-endian byte representation, w bytes of n. -/
def natToLe : Nat → Nat → List Nat
  | 0, _ => []
  | w + 1, n => (n % 256) :: natToLe w (n / 256)

/-- Bytes of a Rust bool (size_of::<bool>() = 1, true = 1, false = 0). -/
def boolBytes (b : Bool) : List Nat :=
  [if b then 1 else 0]

/-- Bytes of a Rust i32: 4 little-endian bytes of the two's-complement pattern. -/
def i32Bytes (v : Int) : List Nat :=
  natToLe 4 (v.emod (2 ^ 32)).toNat

/-- Bytes of a Rust f32 carried as its 32-bit pattern: 4 little-endian bytes. -/
def f32Bytes (p : Nat) : List Nat :=
  natToLe 4 (p % 2 ^ 32)

/-- CString::new: fails (Err, so unwrap panics) on an interior NUL byte, otherwise
the buffer content is the bytes themselves (the terminating NUL the real buffer
appends is left implicit; as_bytes()/as_bytes().len() exclude it). -/
def cstringNew (s : List Nat) : Option (List Nat) :=
  if 0 ∈ s then none else some s

/-- CStr::from_ptr: the C string behind a pointer is the bytes up to the first NUL. -/
def cstrFromPtr (bytes : List Nat) : List Nat :=
  bytes.takeWhile (fun b => b ≠ 0)

/-- UTF-8 continuation byte, 0x80..0xBF. -/
def contByte (b : Nat) : Bool :=
  0x80 ≤ b && b ≤ 0xBF

/-- Full UTF-8 validity of a byte list, as str::from_utf8 checks it (including
overlong-encoding and surrogate rejection). -/
def utf8Valid : List Nat → Bool
  | [] => true
  | b :: rest =>
    if b ≤ 0x7F then
      utf8Valid rest
    else if 0xC2 ≤ b && b ≤ 0xDF then
      match rest with
      | c :: rest2 => contByte c && utf8Valid rest2
      | [] => false
    else if b == 0xE0 then
      match rest with
      | c1 :: c2 :: rest2 => (0xA0 ≤ c1 && c1 ≤ 0xBF) && contByte c2 && utf8Valid rest2
      | _ => false
    else if (0xE1 ≤ b && b ≤ 0xEC) || b == 0xEE || b == 0xEF then
      match rest with
      | c1 :: c2 :: rest2 => contByte c1 && contByte c2 && utf8Valid rest2
      | _ => false
    else if b == 0xED then
      match rest with
      | c1 :: c2 :: rest2 => (0x80 ≤ c1 && c1 ≤ 0x9F) && contByte c2 && utf8Valid rest2
      | _ => false
    else if b == 0xF0 then
      match rest with
      | c1 :: c2 :: c3 :: rest2 =>
        (0x90 ≤ c1 && c1 ≤ 0xBF) && contByte c2 && contByte c3 && utf8Valid rest2
      | _ => false
    else if 0xF1 ≤ b && b ≤ 0xF3 then
      match rest with
      | c1 :: c2 :: c3 :: rest2 =>
        contByte c1 && contByte c2 && contByte c3 && utf8Valid rest2
      | _ => false
    else if b == 0xF4 then
      match rest with
      | c1 :: c2 :: c3 :: rest2 =>
        (0x80 ≤ c1 && c1 ≤ 0x8F) && contByte c2 && contByte c3 && utf8Valid rest2
      | _ => false
    else
      false

/-- Heap of CString allocations: a fresh-id counter and contents per id
(none = freed or never allocated). -/
structure Heap where
  next : Nat
  mem : Nat → Option (List Nat)

/-- Allocate a fresh buffer holding bs, returning its id. -/
def Heap.alloc (h : Heap) (bs : List Nat) : Nat × Heap :=
  (h.next, ⟨h.next + 1, fun i => if i = h.next then some bs else h.mem i⟩)

/-- Free (drop) the buffer with id a. -/
def Heap.free (h : Heap) (a : Nat) : Heap :=
  ⟨h.next, fun i => if i = a then none else h.mem i⟩

/-- A raw pointer as handed to the native layer: either the address of a heap
CString buffer, or a stack temporary that holds the given bytes only for the
duration of the call. -/
inductive Ptr where
  | buffer (a : Nat)
  | stackTemp (bs : List Nat)
deriving DecidableEq

/-- One call into the native SDK surface. -/
inductive NativeCall where
  | createCall
  | destroy
  | setOpt (index : Nat) (p : Ptr) (len : Nat)
  | initCall
  | disconnectCall
  | turnOnCall
  | turnOffCall
  | doProcess
  | describeError
deriving DecidableEq

/-- One point record of the native scan buffer (f32 fields as bit patterns). -/
structure FfiLaserPoint where
  angle : Nat
  range : Nat
  intensity : Nat
deriving DecidableEq

/-- Modelled from the spec: the native scan descriptor LaserFan of the external
ydlidar_sdk_sys crate (not under src/) — a timestamp, a point count and a pointer
to an array of point records, modelled as the function giving the record at each
array offset. -/
structure LaserFan where
  stamp : Nat
  npoints : Nat
  points : Nat → FfiLaserPoint

/-- The opaque native layer: which boolean calls succeed, the scan doProcessSimple
fills in on success, and the bytes behind the pointer DescribeError returns. -/
structure NativeEnv where
  setOptOk : Nat → Ptr → Nat → Bool
  initOk : Bool
  turnOnOk : Bool
  turnOffOk : Bool
  scanOk : Bool
  scanFan : LaserFan
  lastErrorBytes : List Nat

/-- The owned wrapper scan point (f32 fields as bit patterns). -/
structure LaserPoint where
  angle : Nat
  range : Nat
  intensity : Nat
deriving DecidableEq

/-- The owned wrapper scan result. -/
structure LaserScan where
  stamp : Nat
  points : List LaserPoint
deriving DecidableEq

/-- LidarError: the single error kind, carrying the device-supplied description
(the UTF-8 bytes of the Rust String). -/
structure LidarError where
  description : List Nat
deriving DecidableEq

/-- The Ydlidar struct's owned string state: the heap ids of the CString buffers
currently owned by the lidar_port and ignore_array fields. -/
structure YdlidarState where
  lidar_port : Nat
  ignore_array : Nat
deriving DecidableEq

/-- Result of running one wrapper operation: the heap and wrapper state after it,
the native calls it made (in order), and its value — Except.error models a Rust
panic (the state and trace are those at the moment of the panic). -/
structure StepResult (α : Type) where
  heap : Heap
  state : YdlidarState
  calls : List NativeCall
  value : Except String α

/-- Modelled from the spec: property indices of the external ydlidar_sdk_sys crate
(not under src/).  The spec fixes the enumeration of indices but not their numeric
values; only their distinctness is used below, so they are modelled as distinct
naturals in the spec's listing order. -/
def LidarProperty_LidarPropSerialPort : Nat := 0

/-- Modelled from the spec: see LidarProperty_LidarPropSerialPort. -/
def LidarProperty_LidarPropIgnoreArray : Nat := 1

/-- Modelled from the spec: see LidarProperty_LidarPropSerialPort. -/
def LidarProperty_LidarPropSerialBaudrate : Nat := 2

/-- Modelled from the spec: see LidarProperty_LidarPropSerialPort. -/
def LidarProperty_LidarPropLidarType : Nat := 3

/-- Modelled from the spec: see LidarProperty_LidarPropSerialPort. -/
def LidarProperty_LidarPropDeviceType : Nat := 4

/-- Modelled from the spec: see LidarProperty_LidarPropSerialPort. -/
def LidarProperty_LidarPropSampleRate : Nat := 5

/-- Modelled from the spec: see LidarProperty_LidarPropSerialPort. -/
def LidarProperty_LidarPropAbnormalCheckCount : Nat := 6

/-- Modelled from the spec: see LidarProperty_LidarPropSerialPort (the source
constant's spelling, with the SDK's Intenstiy typo, is kept). -/
def LidarProperty_LidarPropIntenstiyBit : Nat := 7

/-- Modelled from the spec: see LidarProperty_LidarPropSerialPort. -/
def LidarProperty_LidarPropMaxRange : Nat := 8

/-- Modelled from the spec: see LidarProperty_LidarPropSerialPort. -/
def LidarProperty_LidarPropMinRange : Nat := 9

/-- Modelled from the spec: see LidarProperty_LidarPropSerialPort. -/
def LidarProperty_LidarPropMaxAngle : Nat := 10

/-- Modelled from the spec: see LidarProperty_LidarPropSerialPort. -/
def LidarProperty_LidarPropMinAngle : Nat := 11

/-- Modelled from the spec: see LidarProperty_LidarPropSerialPort. -/
def LidarProperty_LidarPropScanFrequency : Nat := 12

/-- Modelled from the spec: see LidarProperty_LidarPropSerialPort. -/
def LidarProperty_LidarPropFixedResolution : Nat := 13

/-- Modelled from the spec: see LidarProperty_LidarPropSerialPort. -/
def LidarProperty_LidarPropReversion : Nat := 14

/-- Modelled from the spec: see LidarProperty_LidarPropSerialPort. -/
def LidarProperty_LidarPropInverted : Nat := 15

/-- Modelled from the spec: see LidarProperty_LidarPropSerialPort. -/
def LidarProperty_LidarPropAutoReconnect : Nat := 16

/-- Modelled from the spec: see LidarProperty_LidarPropSerialPort. -/
def LidarProperty_LidarPropSingleChannel : Nat := 17

/-- Modelled from the spec: see LidarProperty_LidarPropSerialPort. -/
def LidarProperty_LidarPropIntenstiy : Nat := 18

/-- Modelled from the spec: see LidarProperty_LidarPropSerialPort. -/
def LidarProperty_LidarPropSupportMotorDtrCtrl : Nat := 19

/-- Modelled from the spec: see LidarProperty_LidarPropSerialPort. -/
def LidarProperty_LidarPropSupportHeartBeat : Nat := 20

/-- The closed LidarProperty enum of the wrapper: strings as byte lists, i32 as
Int, f32 as 32-bit pattern, bool as Bool. -/
inductive LidarProperty where
  | SerialPort (s : List Nat)
  | IgnoreArray (s : List Nat)
  | SerialBaudRate (v : Int)
  | LidarType (v : Int)
  | DeviceType (v : Int)
  | SampleRate (v : Int)
  | AbnormalCheckCount (v : Int)
  | IntensityBit (v : Int)
  | MaxRange (v : Nat)
  | MinRange (v : Nat)
  | MaxAngle (v : Nat)
  | MinAngle (v : Nat)
  | ScanFrequency (v : Nat)
  | FixedResolution (b : Bool)
  | Reversion (b : Bool)
  | Inverted (b : Bool)
  | AutoReconnect (b : Bool)
  | SingleChannel (b : Bool)
  | Intensity (b : Bool)
  | SupportMotorDtrCtrl (b : Bool)
  | SupportHeartBeat (b : Bool)
deriving DecidableEq

/-- Panic message of CString::new().unwrap() on a string with an interior NUL. -/
def nulPanicMsg : String :=
  "called Result::unwrap() on an Err value: NulError"

/-- Panic message of to_str().unwrap() on a non-UTF-8 error description. -/
def utf8PanicMsg : String :=
  "called Result::unwrap() on an Err value: Utf8Error"

/-- Ydlidar::set_bool_property: one setlidaropt call, pointer to a stack temporary
holding the bool's single byte, length size_of::<bool>() = 1; returns the native
bool. -/
def set_bool_property (env : NativeEnv) (h : Heap) (st : YdlidarState)
    (property_index : Nat) (value : Bool) : StepResult Bool :=
  ⟨h, st, [.setOpt property_index (.stackTemp (boolBytes value)) 1],
    .ok (env.setOptOk property_index (.stackTemp (boolBytes value)) 1)⟩

/-- Ydlidar::set_float_property: pointer to a stack temporary holding the f32's
4 bytes, length size_of::<f32>() = 4. -/
def set_float_property (env : NativeEnv) (h : Heap) (st : YdlidarState)
    (property_index : Nat) (value : Nat) : StepResult Bool :=
  ⟨h, st, [.setOpt property_index (.stackTemp (f32Bytes value)) 4],
    .ok (env.setOptOk property_index (.stackTemp (f32Bytes value)) 4)⟩

/-- Ydlidar::set_int_property: pointer to a stack temporary holding the i32's
4 bytes, length size_of::<i32>() = 4. -/
def set_int_property (env : NativeEnv) (h : Heap) (st : YdlidarState)
    (property_index : Nat) (value : Int) : StepResult Bool :=
  ⟨h, st, [.setOpt property_index (.stackTemp (i32Bytes value)) 4],
    .ok (env.setOptOk property_index (.stackTemp (i32Bytes value)) 4)⟩

/-- Ydlidar::set_string_property: for the serial-port and ignore-array indices,
build the new CString (unwrap panics on interior NUL), assign it to the owned
field (allocating the new buffer, dropping the old one), then call setlidaropt
with the address of the field's current buffer and as_bytes().len(); any other
index panics before doing anything. -/
def set_string_property (env : NativeEnv) (h : Heap) (st : YdlidarState)
    (property_index : Nat) (value : List Nat) : StepResult Bool :=
  if property_index = LidarProperty_LidarPropSerialPort then
    match cstringNew value with
    | none => ⟨h, st, [], .error nulPanicMsg⟩
    | some cs =>
      let (a, h1) := h.alloc cs
      let h2 := h1.free st.lidar_port
      let st2 : YdlidarState := { st with lidar_port := a }
      ⟨h2, st2, [.setOpt property_index (.buffer a) cs.length],
        .ok (env.setOptOk property_index (.buffer a) cs.length)⟩
  else if property_index = LidarProperty_LidarPropIgnoreArray then
    match cstringNew value with
    | none => ⟨h, st, [], .error nulPanicMsg⟩
    | some cs =>
      let (a, h1) := h.alloc cs
      let h2 := h1.free st.ignore_array
      let st2 : YdlidarState := { st with ignore_array := a }
      ⟨h2, st2, [.setOpt property_index (.buffer a) cs.length],
        .ok (env.setOptOk property_index (.buffer a) cs.length)⟩
  else
    ⟨h, st, [], .error ("Unknown string property " ++ toString property_index)⟩

/-- The dispatch table of Ydlidar::set_property: each variant to its setter with
its fixed property index. -/
def dispatchProp (env : NativeEnv) (h : Heap) (st : YdlidarState) :
    LidarProperty → StepResult Bool
  | .SerialPort s => set_string_property env h st LidarProperty_LidarPropSerialPort s
  | .IgnoreArray s => set_string_property env h st LidarProperty_LidarPropIgnoreArray s
  | .SerialBaudRate v => set_int_property env h st LidarProperty_LidarPropSerialBaudrate v
  | .LidarType v => set_int_property env h st LidarProperty_LidarPropLidarType v
  | .DeviceType v => set_int_property env h st LidarProperty_LidarPropDeviceType v
  | .SampleRate v => set_int_property env h st LidarProperty_LidarPropSampleRate v
  | .AbnormalCheckCount v => set_int_property env h st LidarProperty_LidarPropAbnormalCheckCount v
  | .IntensityBit v => set_int_property env h st LidarProperty_LidarPropIntenstiyBit v
  | .MaxRange v => set_float_property env h st LidarProperty_LidarPropMaxRange v
  | .MinRange v => set_float_property env h st LidarProperty_LidarPropMinRange v
  | .MaxAngle v => set_float_property env h st LidarProperty_LidarPropMaxAngle v
  | .MinAngle v => set_float_property env h st LidarProperty_LidarPropMinAngle v
  | .ScanFrequency v => set_float_property env h st LidarProperty_LidarPropScanFrequency v
  | .FixedResolution b => set_bool_property env h st LidarProperty_LidarPropFixedResolution b
  | .Reversion b => set_bool_property env h st LidarProperty_LidarPropReversion b
  | .Inverted b => set_bool_property env h st LidarProperty_LidarPropInverted b
  | .AutoReconnect b => set_bool_property env h st LidarProperty_LidarPropAutoReconnect b
  | .SingleChannel b => set_bool_property env h st LidarProperty_LidarPropSingleChannel b
  | .Intensity b => set_bool_property env h st LidarProperty_LidarPropIntenstiy b
  | .SupportMotorDtrCtrl b => set_bool_property env h st LidarProperty_LidarPropSupportMotorDtrCtrl b
  | .SupportHeartBeat b => set_bool_property env h st LidarProperty_LidarPropSupportHeartBeat b

/-- The shared failure tail of every fallible wrapper operation: read the C string
DescribeError points at (a native call recorded by the caller), then
to_str().unwrap() — Err(LidarError) with exactly those bytes if they are valid
UTF-8, a panic otherwise. -/
def wrapNativeError (α : Type) (env : NativeEnv) : Except String (Except LidarError α) :=
  let bytes := cstrFromPtr env.lastErrorBytes
  if utf8Valid bytes then .ok (.error ⟨bytes⟩)
  else .error utf8PanicMsg

/-- Ydlidar::set_property: dispatch, then on a false native return query
DescribeError and wrap the description; panics propagate. -/
def set_property (env : NativeEnv) (h : Heap) (st : YdlidarState)
    (prop : LidarProperty) : StepResult (Except LidarError Unit) :=
  let step := dispatchProp env h st prop
  match step.value with
  | .error m => ⟨step.heap, step.state, step.calls, .error m⟩
  | .ok true => ⟨step.heap, step.state, step.calls, .ok (.ok ())⟩
  | .ok false =>
    ⟨step.heap, step.state, step.calls ++ [.describeError], wrapNativeError Unit env⟩

/-- Ydlidar::initialize (named initDevice here; the source name is a Lean
keyword): one native initialize call; on false, DescribeError + wrap. -/
def initDevice (env : NativeEnv) (h : Heap) (st : YdlidarState) :
    StepResult (Except LidarError Unit) :=
  if env.initOk then ⟨h, st, [.initCall], .ok (.ok ())⟩
  else ⟨h, st, [.initCall, .describeError], wrapNativeError Unit env⟩

/-- Ydlidar::turn_on. -/
def turn_on (env : NativeEnv) (h : Heap) (st : YdlidarState) :
    StepResult (Except LidarError Unit) :=
  if env.turnOnOk then ⟨h, st, [.turnOnCall], .ok (.ok ())⟩
  else ⟨h, st, [.turnOnCall, .describeError], wrapNativeError Unit env⟩

/-- Ydlidar::turn_off. -/
def turn_off (env : NativeEnv) (h : Heap) (st : YdlidarState) :
    StepResult (Except LidarError Unit) :=
  if env.turnOffOk then ⟨h, st, [.turnOffCall], .ok (.ok ())⟩
  else ⟨h, st, [.turnOffCall, .describeError], wrapNativeError Unit env⟩

/-- Ydlidar::disconnect: fire-and-forget native call, no result. -/
def disconnect (_env : NativeEnv) (h : Heap) (st : YdlidarState) : StepResult Unit :=
  ⟨h, st, [.disconnectCall], .ok ()⟩

/-- Ydlidar::do_process_simple: one native doProcessSimple call filling a LaserFan;
on false, DescribeError + wrap; on success, copy each of the npoints point records
out of the native buffer, in order, into an owned LaserScan carrying the native
stamp. -/
def do_process_simple (env : NativeEnv) (h : Heap) (st : YdlidarState) :
    StepResult (Except LidarError LaserScan) :=
  if env.scanOk then
    let fan := env.scanFan
    let points := (List.range fan.npoints).map fun i =>
      let p := fan.points i
      LaserPoint.mk p.angle p.range p.intensity
    ⟨h, st, [.doProcess], .ok (.ok ⟨fan.stamp, points⟩)⟩
  else
    ⟨h, st, [.doProcess, .describeError], wrapNativeError LaserScan env⟩

/-- Ydlidar::new: lidarCreate plus the two default (empty) CString fields, each an
allocation of its own. -/
def ydlidar_new : Heap × YdlidarState × List NativeCall :=
  let h0 : Heap := ⟨0, fun _ => none⟩
  let (p, h1) := h0.alloc []
  let (q, h2) := h1.alloc []
  (h2, ⟨p, q⟩, [.createCall])

/-- Drop for Ydlidar: exactly one native lidarDestroy call. -/
def drop_ydlidar : List NativeCall :=
  [NativeCall.destroy]

/-- One wrapper operation of the public API, for whole-lifetime traces. -/
inductive WrapperOp where
  | setProp (p : LidarProperty)
  | initOp
  | turnOnOp
  | turnOffOp
  | scanOp
  | disconnectOp

/-- Forget a step's value, keeping state and trace (and whether it panicked). -/
def StepResult.discard {α : Type} (r : StepResult α) : StepResult Unit :=
  ⟨r.heap, r.state, r.calls, r.value.map fun _ => ()⟩

/-- Run one wrapper operation. -/
def runOp (env : NativeEnv) (h : Heap) (st : YdlidarState) : WrapperOp → StepResult Unit
  | .setProp p => (set_property env h st p).discard
  | .initOp => (initDevice env h st).discard
  | .turnOnOp => (turn_on env h st).discard
  | .turnOffOp => (turn_off env h st).discard
  | .scanOp => (do_process_simple env h st).discard
  | .disconnectOp => disconnect env h st

/-- Run a sequence of wrapper operations, accumulating the native-call trace and
stopping at the first panic (unwinding; the Bool records whether one happened). -/
def runOps (env : NativeEnv) (h : Heap) (st : YdlidarState) :
    List WrapperOp → Heap × YdlidarState × List NativeCall × Bool
  | [] => (h, st, [], false)
  | op :: rest =>
    let r := runOp env h st op
    match r.value with
    | .ok _ =>
      let rest1 := runOps env r.heap r.state rest
      (rest1.1, rest1.2.1, r.calls ++ rest1.2.2.1, rest1.2.2.2)
    | .error _ => (r.heap, r.state, r.calls, true)

/-- The full native-call trace of one Ydlidar instance's lifetime: construction,
any sequence of wrapper operations (cut short by a panic if one occurs), and the
drop — which Rust runs exactly once on every exit path, unwinding included. -/
def lifetimeTrace (env : NativeEnv) (ops : List WrapperOp) : List NativeCall :=
  ydlidar_new.2.2 ++ (runOps env ydlidar_new.1 ydlidar_new.2.1 ops).2.2.1 ++ drop_ydlidar

/-- The pointer the native layer retains for a string option: the pointer argument
of the last setOpt call with that index in the trace. -/
def retainedStrPtr (index : Nat) (trace : List NativeCall) : Option Ptr :=
  trace.foldl
    (fun acc c =>
      match c with
      | .setOpt i p _ => if i = index then some p else acc
      | _ => acc)
    none

/-- Reading memory through a pointer after the call that passed it has returned:
a heap buffer shows its current contents (none if freed); a stack temporary is
dead, nothing is observable. -/
def derefRetained (h : Heap) : Ptr → Option (List Nat)
  | .buffer a => h.mem a
  | .stackTemp _ => none

/-- Argument sanity for set_property: string arguments carry no interior NUL
(otherwise the documented panic of CString::new().unwrap() fires). -/
def propArgOk : LidarProperty → Prop
  | .SerialPort s => 0 ∉ s
  | .IgnoreArray s => 0 ∉ s
  | _ => True

instance (p : LidarProperty) : Decidable (propArgOk p) := by
  cases p <;> simp [propArgOk] <;> infer_instance

/-- The boolean the dispatched native setlidaropt call returned (true on the
panic paths, which never reach the native call). -/
def setPropNativeOk (env : NativeEnv) (h : Heap) (st : YdlidarState)
    (prop : LidarProperty) : Bool :=
  match (dispatchProp env h st prop).value with
  | .ok b => b
  | .error _ => true

/-- Whether a LidarProperty variant is one of the two string-valued ones. -/
def isStringProp : LidarProperty → Bool
  | .SerialPort _ => true
  | .IgnoreArray _ => true
  | _ => false

/-- Concrete all-succeeding native environment for witnesses. -/
def envW : NativeEnv :=
  { setOptOk := fun _ _ _ => true
    initOk := true
    turnOnOk := true
    turnOffOk := true
    scanOk := true
    scanFan := ⟨7, 2, fun i => ⟨i, i + 1, i + 2⟩⟩
    lastErrorBytes := [] }

/-- Concrete all-failing native environment whose last-error bytes read "boom". -/
def envFailW : NativeEnv :=
  { setOptOk := fun _ _ _ => false
    initOk := false
    turnOnOk := false
    turnOffOk := false
    scanOk := false
    scanFan := ⟨0, 0, fun _ => ⟨0, 0, 0⟩⟩
    lastErrorBytes := [98, 111, 111, 109] }

/-- Concrete all-failing native environment with a non-UTF-8 error description. -/
def envBadUtf8W : NativeEnv :=
  { envFailW with lastErrorBytes := [255, 1] }

/-- The heap right after Ydlidar::new, for witnesses. -/
def hW : Heap :=
  ydlidar_new.1

/-- The wrapper state right after Ydlidar::new, for witnesses. -/
def stW : YdlidarState :=
  ydlidar_new.2.1

/-- Helper: set_string_property at the serial-port index on a NUL-free string,
written out: fresh buffer allocated, old field buffer freed, field updated, one
setlidaropt call with the new buffer's address and the content length. -/
theorem set_string_property_port_eq (env : NativeEnv) (h : Heap) (st : YdlidarState)
    (s : List Nat) (hs : 0 ∉ s) :
    set_string_property env h st LidarProperty_LidarPropSerialPort s =
      ⟨(h.alloc s).2.free st.lidar_port, { st with lidar_port := h.next },
        [.setOpt LidarProperty_LidarPropSerialPort (.buffer h.next) s.length],
        .ok (env.setOptOk LidarProperty_LidarPropSerialPort (.buffer h.next) s.length)⟩ := by
  simp [set_string_property, cstringNew, hs, Heap.alloc]

/-- Helper: set_string_property at the ignore-array index on a NUL-free string. -/
theorem set_string_property_ignore_eq (env : NativeEnv) (h : Heap) (st : YdlidarState)
    (s : List Nat) (hs : 0 ∉ s) :
    set_string_property env h st LidarProperty_LidarPropIgnoreArray s =
      ⟨(h.alloc s).2.free st.ignore_array, { st with ignore_array := h.next },
        [.setOpt LidarProperty_LidarPropIgnoreArray (.buffer h.next) s.length],
        .ok (env.setOptOk LidarProperty_LidarPropIgnoreArray (.buffer h.next) s.length)⟩ := by
  simp [set_string_property, cstringNew, hs, Heap.alloc, LidarProperty_LidarPropIgnoreArray,
    LidarProperty_LidarPropSerialPort]

/-- Helper: every native call set_string_property makes is a setOpt. -/
theorem set_string_property_calls_shape (env : NativeEnv) (h : Heap) (st : YdlidarState)
    (idx : Nat) (s : List Nat) :
    ∀ c ∈ (set_string_property env h st idx s).calls,
      ∃ i q l, c = NativeCall.setOpt i q l := by
  intro c hc
  unfold set_string_property at hc
  split at hc
  · split at hc
    · simp at hc
    · simp only [List.mem_singleton] at hc
      exact ⟨_, _, _, hc⟩
  · split at hc
    · split at hc
      · simp at hc
      · simp only [List.mem_singleton] at hc
        exact ⟨_, _, _, hc⟩
    · simp at hc

/-- Helper: every native call a dispatched setter makes is a setOpt. -/
theorem dispatch_calls_shape (env : NativeEnv) (h : Heap) (st : YdlidarState)
    (prop : LidarProperty) :
    ∀ c ∈ (dispatchProp env h st prop).calls, ∃ i q l, c = NativeCall.setOpt i q l := by
  cases prop <;>
    first
      | exact set_string_property_calls_shape env h st _ _
      | (intro c hc
         simp only [dispatchProp, set_int_property, set_bool_property, set_float_property,
           List.mem_singleton] at hc
         exact ⟨_, _, _, hc⟩)

/-- Helper: a dispatched setter never calls DescribeError. -/
theorem dispatch_no_describe (env : NativeEnv) (h : Heap) (st : YdlidarState)
    (prop : LidarProperty) :
    NativeCall.describeError ∉ (dispatchProp env h st prop).calls := by
  intro hmem
  obtain ⟨i, q, l, hc⟩ := dispatch_calls_shape env h st prop _ hmem
  exact absurd hc (by simp)

/-- Helper: a dispatched setter never calls lidarDestroy. -/
theorem dispatch_no_destroy (env : NativeEnv) (h : Heap) (st : YdlidarState)
    (prop : LidarProperty) :
    NativeCall.destroy ∉ (dispatchProp env h st prop).calls := by
  intro hmem
  obtain ⟨i, q, l, hc⟩ := dispatch_calls_shape env h st prop _ hmem
  exact absurd hc (by simp)

/-- Helper: when the argument is sane, the dispatched setter does not panic and its
value is the native boolean setPropNativeOk extracts. -/
theorem dispatch_value_ok (env : NativeEnv) (h : Heap) (st : YdlidarState)
    (prop : LidarProperty) (hp : propArgOk prop) :
    (dispatchProp env h st prop).value = .ok (setPropNativeOk env h st prop) := by
  cases prop <;>
    simp_all [dispatchProp, setPropNativeOk, set_int_property, set_bool_property,
      set_float_property, set_string_property, cstringNew, propArgOk,
      LidarProperty_LidarPropSerialPort, LidarProperty_LidarPropIgnoreArray]

/-- Helper: set_property written out from the dispatched step's value. -/
theorem set_property_of_dispatch (env : NativeEnv) (h : Heap) (st : YdlidarState)
    (prop : LidarProperty) (b : Bool)
    (hv : (dispatchProp env h st prop).value = .ok b) :
    set_property env h st prop =
      if b then
        ⟨(dispatchProp env h st prop).heap, (dispatchProp env h st prop).state,
          (dispatchProp env h st prop).calls, .ok (.ok ())⟩
      else
        ⟨(dispatchProp env h st prop).heap, (dispatchProp env h st prop).state,
          (dispatchProp env h st prop).calls ++ [.describeError], wrapNativeError Unit env⟩ := by
  cases b <;> simp [set_property, hv]

/-- Helper: set_property keeps the dispatched step's heap and state on every path. -/
theorem set_property_heap_state (env : NativeEnv) (h : Heap) (st : YdlidarState)
    (prop : LidarProperty) :
    (set_property env h st prop).heap = (dispatchProp env h st prop).heap ∧
    (set_property env h st prop).state = (dispatchProp env h st prop).state := by
  unfold set_property
  rcases hv : (dispatchProp env h st prop).value with m | b
  · simp [hv]
  · cases b <;> simp [hv]

/-- Helper: the first native call of set_property is the dispatched setOpt call. -/
theorem set_property_head (env : NativeEnv) (h : Heap) (st : YdlidarState)
    (prop : LidarProperty) (c : NativeCall)
    (hd : (dispatchProp env h st prop).calls = [c]) :
    (set_property env h st prop).calls.head? = some c := by
  unfold set_property
  rcases hv : (dispatchProp env h st prop).value with m | b
  · simp [hv, hd]
  · cases b <;> simp [hv, hd]

/-- Helper: set_property's calls are the dispatched calls, possibly followed by
the one DescribeError query. -/
theorem set_property_calls_sub (env : NativeEnv) (h : Heap) (st : YdlidarState)
    (prop : LidarProperty) :
    (set_property env h st prop).calls = (dispatchProp env h st prop).calls ∨
    (set_property env h st prop).calls =
      (dispatchProp env h st prop).calls ++ [NativeCall.describeError] := by
  unfold set_property
  rcases hv : (dispatchProp env h st prop).value with m | b
  · left
    simp [hv]
  · cases b
    · right
      simp [hv]
    · left
      simp [hv]

/-- Helper: set_property never calls lidarDestroy. -/
theorem set_property_no_destroy (env : NativeEnv) (h : Heap) (st : YdlidarState)
    (prop : LidarProperty) :
    NativeCall.destroy ∉ (set_property env h st prop).calls := by
  rcases set_property_calls_sub env h st prop with hc | hc <;> rw [hc]
  · exact dispatch_no_destroy env h st prop
  · intro hmem
    rcases List.mem_append.mp hmem with hm | hm
    · exact dispatch_no_destroy env h st prop hm
    · simp at hm

/-- Helper: no single wrapper operation calls lidarDestroy. -/
theorem runOp_no_destroy (env : NativeEnv) (h : Heap) (st : YdlidarState)
    (op : WrapperOp) :
    NativeCall.destroy ∉ (runOp env h st op).calls := by
  cases op
  case setProp p =>
    simpa [runOp, StepResult.discard] using set_property_no_destroy env h st p
  all_goals
    simp only [runOp, StepResult.discard, initDevice, turn_on, turn_off,
      do_process_simple, disconnect]
  all_goals
    first
      | (split <;> simp)
      | simp

/-- Helper: no sequence of wrapper operations ever calls lidarDestroy. -/
theorem runOps_no_destroy (env : NativeEnv) (ops : List WrapperOp) :
    ∀ (h : Heap) (st : YdlidarState),
      NativeCall.destroy ∉ (runOps env h st ops).2.2.1 := by
  induction ops with
  | nil =>
    intro h st
    simp [runOps]
  | cons op rest ih =>
    intro h st
    simp only [runOps]
    rcases hv : (runOp env h st op).value with m | u
    · simp only [hv]
      exact runOp_no_destroy env h st op
    · simp only [hv]
      intro hmem
      rcases List.mem_append.mp hmem with hm | hm
      · exact runOp_no_destroy env h st op hm
      · exact ih (runOp env h st op).heap (runOp env h st op).state hm

/-- C7: over the lifetime of one Ydlidar instance — construction, any sequence of
wrapper operations under any native behaviour (early-return error paths and
panics included), then the drop — the native lidarDestroy call happens exactly
once, at the drop, and no native call follows it. -/
theorem lidar_destroyed_exactly_once (env : NativeEnv) (ops : List WrapperOp) :
    (lifetimeTrace env ops).count NativeCall.destroy = 1 ∧
    ∃ pre, lifetimeTrace env ops = pre ++ [NativeCall.destroy] ∧
      NativeCall.destroy ∉ pre := by
  have hno : NativeCall.destroy ∉ (runOps env ydlidar_new.1 ydlidar_new.2.1 ops).2.2.1 :=
    runOps_no_destroy env ops _ _
  have htr : lifetimeTrace env ops =
      [NativeCall.createCall] ++ (runOps env ydlidar_new.1 ydlidar_new.2.1 ops).2.2.1 ++
        [NativeCall.destroy] := rfl
  constructor
  · rw [htr, List.count_append, List.count_append, List.count_eq_zero.mpr hno]
    decide
  · refine ⟨[NativeCall.createCall] ++ (runOps env ydlidar_new.1 ydlidar_new.2.1 ops).2.2.1,
      by rw [htr, List.append_assoc], ?_⟩
    intro hmem
    rcases List.mem_append.mp hmem with hm | hm
    · simp at hm
    · exact hno hm

/-- C6: for every property index other than the serial-port and ignore-array
indices, set_string_property panics (a fail-fast logic error, not a recoverable
Err): it performs no native call and leaves the heap and both buffer fields
untouched. -/
theorem set_string_property_unknown_index_panics
    (env : NativeEnv) (h : Heap) (st : YdlidarState) (idx : Nat) (value : List Nat)
    (hs : idx ≠ LidarProperty_LidarPropSerialPort)
    (hi : idx ≠ LidarProperty_LidarPropIgnoreArray) :
    (set_string_property env h st idx value).value =
      .error ("Unknown string property " ++ toString idx) ∧
    (set_string_property env h st idx value).calls = [] ∧
    (set_string_property env h st idx value).heap = h ∧
    (set_string_property env h st idx value).state = st := by
  simp [set_string_property, hs, hi]

/-- Witness for C6 at the concrete unknown index 5. -/
theorem set_string_property_unknown_index_panics_witness :
    (set_string_property envW hW stW 5 [97]).value =
      .error ("Unknown string property " ++ toString (5 : Nat)) ∧
    (set_string_property envW hW stW 5 [97]).calls = [] ∧
    (set_string_property envW hW stW 5 [97]).heap = hW ∧
    (set_string_property envW hW stW 5 [97]).state = stW :=
  set_string_property_unknown_index_panics envW hW stW 5 [97] (by decide) (by decide)

/-- C8: set_property on a string-valued property whose argument contains an
interior NUL byte panics via CString::new().unwrap() instead of returning Err;
no native call is made and neither the heap nor the buffer fields are updated. -/
theorem set_property_interior_nul_panics
    (env : NativeEnv) (h : Heap) (st : YdlidarState) (s : List Nat) (hnul : 0 ∈ s) :
    ((set_property env h st (.SerialPort s)).value = .error nulPanicMsg ∧
     (set_property env h st (.SerialPort s)).calls = [] ∧
     (set_property env h st (.SerialPort s)).heap = h ∧
     (set_property env h st (.SerialPort s)).state = st) ∧
    ((set_property env h st (.IgnoreArray s)).value = .error nulPanicMsg ∧
     (set_property env h st (.IgnoreArray s)).calls = [] ∧
     (set_property env h st (.IgnoreArray s)).heap = h ∧
     (set_property env h st (.IgnoreArray s)).state = st) := by
  have hdp : dispatchProp env h st (.SerialPort s) = ⟨h, st, [], .error nulPanicMsg⟩ := by
    simp [dispatchProp, set_string_property, cstringNew, hnul]
  have hdi : dispatchProp env h st (.IgnoreArray s) = ⟨h, st, [], .error nulPanicMsg⟩ := by
    simp [dispatchProp, set_string_property, cstringNew, hnul,
      LidarProperty_LidarPropSerialPort, LidarProperty_LidarPropIgnoreArray]
  constructor <;> simp [set_property, hdp, hdi]

/-- Witness for C8 with the concrete string [97, 0] (interior NUL). -/
theorem set_property_interior_nul_panics_witness :
    ((set_property envW hW stW (.SerialPort [97, 0])).value = .error nulPanicMsg ∧
     (set_property envW hW stW (.SerialPort [97, 0])).calls = [] ∧
     (set_property envW hW stW (.SerialPort [97, 0])).heap = hW ∧
     (set_property envW hW stW (.SerialPort [97, 0])).state = stW) ∧
    ((set_property envW hW stW (.IgnoreArray [97, 0])).value = .error nulPanicMsg ∧
     (set_property envW hW stW (.IgnoreArray [97, 0])).calls = [] ∧
     (set_property envW hW stW (.IgnoreArray [97, 0])).heap = hW ∧
     (set_property envW hW stW (.IgnoreArray [97, 0])).state = stW) :=
  set_property_interior_nul_panics envW hW stW [97, 0] (by decide)

/-- C4: if the native scan call reports failure, do_process_simple constructs no
LaserScan at all — its value is never a success — and its native calls are the
scan attempt followed by the error query. -/
theorem do_process_simple_failure
    (env : NativeEnv) (h : Heap) (st : YdlidarState) (hfail : env.scanOk = false) :
    (∀ scan : LaserScan,
      (do_process_simple env h st).value ≠ .ok (.ok scan)) ∧
    (do_process_simple env h st).calls = [.doProcess, .describeError] := by
  constructor
  · intro scan
    simp only [do_process_simple, hfail, Bool.false_eq_true, if_false, wrapNativeError]
    split <;> simp
  · simp [do_process_simple, hfail]

/-- Witness for C4 in the all-failing environment. -/
theorem do_process_simple_failure_witness :
    (∀ scan : LaserScan,
      (do_process_simple envFailW hW stW).value ≠ .ok (.ok scan)) ∧
    (do_process_simple envFailW hW stW).calls = [.doProcess, .describeError] :=
  do_process_simple_failure envFailW hW stW rfl

/-- C3: if the native scan call succeeds, do_process_simple returns Ok with a
LaserScan whose points list has length exactly the native point count, whose i-th
point carries the angle, range and intensity of the i-th native point (order
preserved), and whose stamp is the native timestamp; only the one scan call is
made, and the scan is a copy — it is determined by the native point values alone,
independent of which buffer held them. -/
theorem do_process_simple_success
    (env : NativeEnv) (h : Heap) (st : YdlidarState) (hok : env.scanOk = true) :
    ∃ scan : LaserScan,
      (do_process_simple env h st).value = .ok (.ok scan) ∧
      scan.points.length = env.scanFan.npoints ∧
      scan.stamp = env.scanFan.stamp ∧
      (∀ i, i < env.scanFan.npoints →
        scan.points[i]? = some ⟨(env.scanFan.points i).angle, (env.scanFan.points i).range,
          (env.scanFan.points i).intensity⟩) ∧
      (do_process_simple env h st).calls = [.doProcess] ∧
      (∀ env2 : NativeEnv, env2.scanOk = true →
        env2.scanFan.stamp = env.scanFan.stamp →
        env2.scanFan.npoints = env.scanFan.npoints →
        (∀ i, i < env.scanFan.npoints → env2.scanFan.points i = env.scanFan.points i) →
        ∀ (h2 : Heap) (st2 : YdlidarState),
          (do_process_simple env2 h2 st2).value = .ok (.ok scan)) := by
  refine ⟨⟨env.scanFan.stamp, (List.range env.scanFan.npoints).map fun i =>
    ⟨(env.scanFan.points i).angle, (env.scanFan.points i).range,
      (env.scanFan.points i).intensity⟩⟩, ?_, by simp, rfl, ?_, ?_, ?_⟩
  · simp [do_process_simple, hok]
  · intro i hi
    rw [List.getElem?_map, List.getElem?_range hi, Option.map_some']
  · simp [do_process_simple, hok]
  · intro env2 h2ok hstamp hn hpts h2 st2
    have hmap : (List.range env2.scanFan.npoints).map (fun i =>
        (⟨(env2.scanFan.points i).angle, (env2.scanFan.points i).range,
          (env2.scanFan.points i).intensity⟩ : LaserPoint)) =
        (List.range env.scanFan.npoints).map (fun i =>
        (⟨(env.scanFan.points i).angle, (env.scanFan.points i).range,
          (env.scanFan.points i).intensity⟩ : LaserPoint)) := by
      rw [hn]
      refine List.map_congr_left ?_
      intro i hi
      rw [hpts i (List.mem_range.mp hi)]
    simp [do_process_simple, h2ok, hmap, hstamp]

/-- Witness for C3 in the all-succeeding environment with a 2-point scan. -/
theorem do_process_simple_success_witness :
    ∃ scan : LaserScan,
      (do_process_simple envW hW stW).value = .ok (.ok scan) ∧
      scan.points.length = envW.scanFan.npoints ∧
      scan.stamp = envW.scanFan.stamp ∧
      (∀ i, i < envW.scanFan.npoints →
        scan.points[i]? = some ⟨(envW.scanFan.points i).angle, (envW.scanFan.points i).range,
          (envW.scanFan.points i).intensity⟩) ∧
      (do_process_simple envW hW stW).calls = [.doProcess] ∧
      (∀ env2 : NativeEnv, env2.scanOk = true →
        env2.scanFan.stamp = envW.scanFan.stamp →
        env2.scanFan.npoints = envW.scanFan.npoints →
        (∀ i, i < envW.scanFan.npoints → env2.scanFan.points i = envW.scanFan.points i) →
        ∀ (h2 : Heap) (st2 : YdlidarState),
          (do_process_simple env2 h2 st2).value = .ok (.ok scan)) :=
  do_process_simple_success envW hW stW rfl

/-- C5: for every fallible operation, a false native return yields Err(LidarError)
whose description is exactly the C string DescribeError returns at that moment —
never a locally synthesized string — with the error query made right after the
failed call; and on the success path the error query is never made. -/
theorem native_error_description_exact
    (env : NativeEnv) (h : Heap) (st : YdlidarState)
    (hutf : utf8Valid (cstrFromPtr env.lastErrorBytes) = true) :
    ((env.initOk = false →
        (initDevice env h st).value = .ok (.error ⟨cstrFromPtr env.lastErrorBytes⟩) ∧
        (initDevice env h st).calls = [.initCall, .describeError]) ∧
     (env.initOk = true →
        (initDevice env h st).value = .ok (.ok ()) ∧
        NativeCall.describeError ∉ (initDevice env h st).calls)) ∧
    ((env.turnOnOk = false →
        (turn_on env h st).value = .ok (.error ⟨cstrFromPtr env.lastErrorBytes⟩) ∧
        (turn_on env h st).calls = [.turnOnCall, .describeError]) ∧
     (env.turnOnOk = true →
        (turn_on env h st).value = .ok (.ok ()) ∧
        NativeCall.describeError ∉ (turn_on env h st).calls)) ∧
    ((env.turnOffOk = false →
        (turn_off env h st).value = .ok (.error ⟨cstrFromPtr env.lastErrorBytes⟩) ∧
        (turn_off env h st).calls = [.turnOffCall, .describeError]) ∧
     (env.turnOffOk = true →
        (turn_off env h st).value = .ok (.ok ()) ∧
        NativeCall.describeError ∉ (turn_off env h st).calls)) ∧
    ((env.scanOk = false →
        (do_process_simple env h st).value = .ok (.error ⟨cstrFromPtr env.lastErrorBytes⟩) ∧
        (do_process_simple env h st).calls = [.doProcess, .describeError]) ∧
     (env.scanOk = true →
        NativeCall.describeError ∉ (do_process_simple env h st).calls)) ∧
    (∀ prop : LidarProperty, propArgOk prop →
      (setPropNativeOk env h st prop = false →
        (set_property env h st prop).value = .ok (.error ⟨cstrFromPtr env.lastErrorBytes⟩) ∧
        NativeCall.describeError ∈ (set_property env h st prop).calls) ∧
      (setPropNativeOk env h st prop = true →
        (set_property env h st prop).value = .ok (.ok ()) ∧
        NativeCall.describeError ∉ (set_property env h st prop).calls)) := by
  refine ⟨⟨?_, ?_⟩, ⟨?_, ?_⟩, ⟨?_, ?_⟩, ⟨?_, ?_⟩, ?_⟩
  · intro hf
    simp [initDevice, hf, wrapNativeError, hutf]
  · intro ht
    simp [initDevice, ht]
  · intro hf
    simp [turn_on, hf, wrapNativeError, hutf]
  · intro ht
    simp [turn_on, ht]
  · intro hf
    simp [turn_off, hf, wrapNativeError, hutf]
  · intro ht
    simp [turn_off, ht]
  · intro hf
    simp [do_process_simple, hf, wrapNativeError, hutf]
  · intro ht
    simp [do_process_simple, ht]
  · intro prop hp
    have hv := dispatch_value_ok env h st prop hp
    constructor
    · intro hfalse
      rw [hfalse] at hv
      rw [set_property_of_dispatch env h st prop false hv]
      constructor
      · simp [wrapNativeError, hutf]
      · simp
    · intro htrue
      rw [htrue] at hv
      rw [set_property_of_dispatch env h st prop true hv]
      constructor
      · simp
      · simpa using dispatch_no_describe env h st prop

/-- Witness for C5 in the all-failing environment whose last error reads "boom":
initialize and a set_property both surface exactly those bytes. -/
theorem native_error_description_exact_witness :
    ((initDevice envFailW hW stW).value =
        .ok (.error ⟨cstrFromPtr envFailW.lastErrorBytes⟩) ∧
      (initDevice envFailW hW stW).calls = [.initCall, .describeError]) ∧
    ((set_property envFailW hW stW (.SerialBaudRate 115200)).value =
        .ok (.error ⟨cstrFromPtr envFailW.lastErrorBytes⟩) ∧
      NativeCall.describeError ∈
        (set_property envFailW hW stW (.SerialBaudRate 115200)).calls) :=
  ⟨(native_error_description_exact envFailW hW stW (by decide)).1.1 rfl,
   ((native_error_description_exact envFailW hW stW (by decide)).2.2.2.2
      (.SerialBaudRate 115200) trivial).1 rfl⟩

/-- Helper: if the shared error tail produced an Err, the description is the
valid-UTF-8 last-error C string. -/
theorem wrapNativeError_ok_utf8 (α : Type) (env : NativeEnv) (e : LidarError)
    (hw : wrapNativeError α env = .ok (.error e)) :
    utf8Valid e.description = true := by
  simp only [wrapNativeError] at hw
  by_cases hv : utf8Valid (cstrFromPtr env.lastErrorBytes) = true
  · rw [if_pos hv] at hw
    obtain rfl : LidarError.mk (cstrFromPtr env.lastErrorBytes) = e := by
      injection hw with hw2
      injection hw2
    exact hv
  · rw [if_neg hv] at hw
    exact absurd hw (by simp)

/-- Helper: an Err value out of set_property means the error tail ran with a
valid-UTF-8 description. -/
theorem set_property_err_utf8 (env : NativeEnv) (h : Heap) (st : YdlidarState)
    (prop : LidarProperty) (e : LidarError)
    (hv : (set_property env h st prop).value = .ok (.error e)) :
    utf8Valid e.description = true := by
  unfold set_property at hv
  rcases hd : (dispatchProp env h st prop).value with m | b
  · simp only [hd] at hv
    exact absurd hv (by simp)
  · cases b
    · simp only [hd] at hv
      exact wrapNativeError_ok_utf8 Unit env e hv
    · simp only [hd] at hv
      exact absurd hv (by simp)

/-- C9: on any failed native call, a non-UTF-8 last-error description makes the
wrapper panic via to_str().unwrap() instead of returning Err; and whenever an
Err(LidarError) is returned, its description is valid UTF-8. -/
theorem invalid_utf8_description_panics
    (env : NativeEnv) (h : Heap) (st : YdlidarState) :
    (utf8Valid (cstrFromPtr env.lastErrorBytes) = false →
      (env.initOk = false → (initDevice env h st).value = .error utf8PanicMsg) ∧
      (env.turnOnOk = false → (turn_on env h st).value = .error utf8PanicMsg) ∧
      (env.turnOffOk = false → (turn_off env h st).value = .error utf8PanicMsg) ∧
      (env.scanOk = false → (do_process_simple env h st).value = .error utf8PanicMsg) ∧
      (∀ prop : LidarProperty, propArgOk prop →
        setPropNativeOk env h st prop = false →
        (set_property env h st prop).value = .error utf8PanicMsg)) ∧
    (∀ e : LidarError,
      ((initDevice env h st).value = .ok (.error e) ∨
       (turn_on env h st).value = .ok (.error e) ∨
       (turn_off env h st).value = .ok (.error e) ∨
       (do_process_simple env h st).value = .ok (.error e) ∨
       (∃ prop : LidarProperty, (set_property env h st prop).value = .ok (.error e))) →
      utf8Valid e.description = true) := by
  constructor
  · intro hbad
    refine ⟨?_, ?_, ?_, ?_, ?_⟩
    · intro hf
      simp [initDevice, hf, wrapNativeError, hbad]
    · intro hf
      simp [turn_on, hf, wrapNativeError, hbad]
    · intro hf
      simp [turn_off, hf, wrapNativeError, hbad]
    · intro hf
      simp [do_process_simple, hf, wrapNativeError, hbad]
    · intro prop hp hfalse
      have hv := dispatch_value_ok env h st prop hp
      rw [hfalse] at hv
      rw [set_property_of_dispatch env h st prop false hv]
      simp [wrapNativeError, hbad]
  · intro e hcase
    rcases hcase with hv | hv | hv | hv | ⟨prop, hv⟩
    · cases hi : env.initOk
      · simp only [initDevice, hi, Bool.false_eq_true, if_false] at hv
        exact wrapNativeError_ok_utf8 Unit env e hv
      · simp [initDevice, hi] at hv
    · cases hi : env.turnOnOk
      · simp only [turn_on, hi, Bool.false_eq_true, if_false] at hv
        exact wrapNativeError_ok_utf8 Unit env e hv
      · simp [turn_on, hi] at hv
    · cases hi : env.turnOffOk
      · simp only [turn_off, hi, Bool.false_eq_true, if_false] at hv
        exact wrapNativeError_ok_utf8 Unit env e hv
      · simp [turn_off, hi] at hv
    · cases hi : env.scanOk
      · simp only [do_process_simple, hi, Bool.false_eq_true, if_false] at hv
        exact wrapNativeError_ok_utf8 LaserScan env e hv
      · simp [do_process_simple, hi] at hv
    · exact set_property_err_utf8 env h st prop e hv

/-- Witness for C9 in the failing environment whose error description byte 255 is
not valid UTF-8: initialize panics. -/
theorem invalid_utf8_description_panics_witness :
    (initDevice envBadUtf8W hW stW).value = .error utf8PanicMsg :=
  ((invalid_utf8_description_panics envBadUtf8W hW stW).1 (by decide)).1 rfl

/-- Helper: natToLe always produces exactly w bytes. -/
theorem natToLe_length (w : Nat) : ∀ n, (natToLe w n).length = w := by
  induction w with
  | zero =>
    intro n
    rfl
  | succ w ih =>
    intro n
    simp [natToLe, ih]

/-- C2: set_property hands the native set-option call, for every variant, the
property index fixed for that variant and the byte width of its semantic type —
bool 1 byte, i32 4 bytes, f32 4 bytes, string content-length bytes — and the bytes
behind the passed pointer are exactly the value's representation. -/
theorem set_property_marshal (env : NativeEnv) (h : Heap) (st : YdlidarState)
    (hwp : st.lidar_port < h.next) (hwi : st.ignore_array < h.next) :
    (∀ s : List Nat, 0 ∉ s → ∃ a,
      (set_property env h st (.SerialPort s)).calls.head? =
        some (.setOpt LidarProperty_LidarPropSerialPort (.buffer a) s.length) ∧
      (set_property env h st (.SerialPort s)).heap.mem a = some s) ∧
    (∀ s : List Nat, 0 ∉ s → ∃ a,
      (set_property env h st (.IgnoreArray s)).calls.head? =
        some (.setOpt LidarProperty_LidarPropIgnoreArray (.buffer a) s.length) ∧
      (set_property env h st (.IgnoreArray s)).heap.mem a = some s) ∧
    (∀ v : Int, (set_property env h st (.SerialBaudRate v)).calls.head? =
      some (.setOpt LidarProperty_LidarPropSerialBaudrate (.stackTemp (i32Bytes v)) 4) ∧
      (i32Bytes v).length = 4) ∧
    (∀ v : Int, (set_property env h st (.LidarType v)).calls.head? =
      some (.setOpt LidarProperty_LidarPropLidarType (.stackTemp (i32Bytes v)) 4) ∧
      (i32Bytes v).length = 4) ∧
    (∀ v : Int, (set_property env h st (.DeviceType v)).calls.head? =
      some (.setOpt LidarProperty_LidarPropDeviceType (.stackTemp (i32Bytes v)) 4) ∧
      (i32Bytes v).length = 4) ∧
    (∀ v : Int, (set_property env h st (.SampleRate v)).calls.head? =
      some (.setOpt LidarProperty_LidarPropSampleRate (.stackTemp (i32Bytes v)) 4) ∧
      (i32Bytes v).length = 4) ∧
    (∀ v : Int, (set_property env h st (.AbnormalCheckCount v)).calls.head? =
      some (.setOpt LidarProperty_LidarPropAbnormalCheckCount (.stackTemp (i32Bytes v)) 4) ∧
      (i32Bytes v).length = 4) ∧
    (∀ v : Int, (set_property env h st (.IntensityBit v)).calls.head? =
      some (.setOpt LidarProperty_LidarPropIntenstiyBit (.stackTemp (i32Bytes v)) 4) ∧
      (i32Bytes v).length = 4) ∧
    (∀ v : Nat, (set_property env h st (.MaxRange v)).calls.head? =
      some (.setOpt LidarProperty_LidarPropMaxRange (.stackTemp (f32Bytes v)) 4) ∧
      (f32Bytes v).length = 4) ∧
    (∀ v : Nat, (set_property env h st (.MinRange v)).calls.head? =
      some (.setOpt LidarProperty_LidarPropMinRange (.stackTemp (f32Bytes v)) 4) ∧
      (f32Bytes v).length = 4) ∧
    (∀ v : Nat, (set_property env h st (.MaxAngle v)).calls.head? =
      some (.setOpt LidarProperty_LidarPropMaxAngle (.stackTemp (f32Bytes v)) 4) ∧
      (f32Bytes v).length = 4) ∧
    (∀ v : Nat, (set_property env h st (.MinAngle v)).calls.head? =
      some (.setOpt LidarProperty_LidarPropMinAngle (.stackTemp (f32Bytes v)) 4) ∧
      (f32Bytes v).length = 4) ∧
    (∀ v : Nat, (set_property env h st (.ScanFrequency v)).calls.head? =
      some (.setOpt LidarProperty_LidarPropScanFrequency (.stackTemp (f32Bytes v)) 4) ∧
      (f32Bytes v).length = 4) ∧
    (∀ b : Bool, (set_property env h st (.FixedResolution b)).calls.head? =
      some (.setOpt LidarProperty_LidarPropFixedResolution (.stackTemp (boolBytes b)) 1) ∧
      (boolBytes b).length = 1) ∧
    (∀ b : Bool, (set_property env h st (.Reversion b)).calls.head? =
      some (.setOpt LidarProperty_LidarPropReversion (.stackTemp (boolBytes b)) 1) ∧
      (boolBytes b).length = 1) ∧
    (∀ b : Bool, (set_property env h st (.Inverted b)).calls.head? =
      some (.setOpt LidarProperty_LidarPropInverted (.stackTemp (boolBytes b)) 1) ∧
      (boolBytes b).length = 1) ∧
    (∀ b : Bool, (set_property env h st (.AutoReconnect b)).calls.head? =
      some (.setOpt LidarProperty_LidarPropAutoReconnect (.stackTemp (boolBytes b)) 1) ∧
      (boolBytes b).length = 1) ∧
    (∀ b : Bool, (set_property env h st (.SingleChannel b)).calls.head? =
      some (.setOpt LidarProperty_LidarPropSingleChannel (.stackTemp (boolBytes b)) 1) ∧
      (boolBytes b).length = 1) ∧
    (∀ b : Bool, (set_property env h st (.Intensity b)).calls.head? =
      some (.setOpt LidarProperty_LidarPropIntenstiy (.stackTemp (boolBytes b)) 1) ∧
      (boolBytes b).length = 1) ∧
    (∀ b : Bool, (set_property env h st (.SupportMotorDtrCtrl b)).calls.head? =
      some (.setOpt LidarProperty_LidarPropSupportMotorDtrCtrl (.stackTemp (boolBytes b)) 1) ∧
      (boolBytes b).length = 1) ∧
    (∀ b : Bool, (set_property env h st (.SupportHeartBeat b)).calls.head? =
      some (.setOpt LidarProperty_LidarPropSupportHeartBeat (.stackTemp (boolBytes b)) 1) ∧
      (boolBytes b).length = 1) := by
  have hport : ∀ s : List Nat, 0 ∉ s → ∃ a,
      (set_property env h st (.SerialPort s)).calls.head? =
        some (.setOpt LidarProperty_LidarPropSerialPort (.buffer a) s.length) ∧
      (set_property env h st (.SerialPort s)).heap.mem a = some s := by
    intro s hs
    have hdd : dispatchProp env h st (.SerialPort s) =
        ⟨(h.alloc s).2.free st.lidar_port, { st with lidar_port := h.next },
          [.setOpt LidarProperty_LidarPropSerialPort (.buffer h.next) s.length],
          .ok (env.setOptOk LidarProperty_LidarPropSerialPort (.buffer h.next) s.length)⟩ :=
      set_string_property_port_eq env h st s hs
    refine ⟨h.next, set_property_head env h st _ _ (by rw [hdd]), ?_⟩
    rw [(set_property_heap_state env h st _).1, hdd]
    have hne : h.next ≠ st.lidar_port := Ne.symm (Nat.ne_of_lt hwp)
    simp [Heap.alloc, Heap.free, hne]
  have hignore : ∀ s : List Nat, 0 ∉ s → ∃ a,
      (set_property env h st (.IgnoreArray s)).calls.head? =
        some (.setOpt LidarProperty_LidarPropIgnoreArray (.buffer a) s.length) ∧
      (set_property env h st (.IgnoreArray s)).heap.mem a = some s := by
    intro s hs
    have hdd : dispatchProp env h st (.IgnoreArray s) =
        ⟨(h.alloc s).2.free st.ignore_array, { st with ignore_array := h.next },
          [.setOpt LidarProperty_LidarPropIgnoreArray (.buffer h.next) s.length],
          .ok (env.setOptOk LidarProperty_LidarPropIgnoreArray (.buffer h.next) s.length)⟩ :=
      set_string_property_ignore_eq env h st s hs
    refine ⟨h.next, set_property_head env h st _ _ (by rw [hdd]), ?_⟩
    rw [(set_property_heap_state env h st _).1, hdd]
    have hne : h.next ≠ st.ignore_array := Ne.symm (Nat.ne_of_lt hwi)
    simp [Heap.alloc, Heap.free, hne]
  refine ⟨hport, hignore, ?_, ?_, ?_, ?_, ?_, ?_, ?_, ?_, ?_, ?_, ?_, ?_, ?_, ?_, ?_,
    ?_, ?_, ?_, ?_⟩ <;>
    intro v <;>
    first
      | exact ⟨set_property_head env h st _ _ rfl, natToLe_length 4 _⟩
      | exact ⟨set_property_head env h st _ _ rfl, rfl⟩

/-- Witness for C2: a concrete string set and a concrete baud-rate set. -/
theorem set_property_marshal_witness :
    (∃ a, (set_property envW hW stW (.SerialPort [47, 100])).calls.head? =
        some (.setOpt LidarProperty_LidarPropSerialPort (.buffer a) 2) ∧
      (set_property envW hW stW (.SerialPort [47, 100])).heap.mem a = some [47, 100]) ∧
    ((set_property envW hW stW (.SerialBaudRate 115200)).calls.head? =
        some (.setOpt LidarProperty_LidarPropSerialBaudrate (.stackTemp (i32Bytes 115200)) 4) ∧
      (i32Bytes 115200).length = 4) :=
  ⟨(set_property_marshal envW hW stW (by decide) (by decide)).1 [47, 100] (by decide),
   (set_property_marshal envW hW stW (by decide) (by decide)).2.2.1 115200⟩

/-- Helper: the pieces of set_property on a NUL-free serial-port string: the new
buffer is allocated at the fresh id, the old field buffer freed, the field updated
to the fresh id, and the one setOpt call carries that id's address. -/
theorem set_property_port_parts (env : NativeEnv) (h : Heap) (st : YdlidarState)
    (s : List Nat) (hs : 0 ∉ s) :
    (set_property env h st (.SerialPort s)).heap = (h.alloc s).2.free st.lidar_port ∧
    (set_property env h st (.SerialPort s)).state = { st with lidar_port := h.next } ∧
    ((set_property env h st (.SerialPort s)).calls =
        [.setOpt LidarProperty_LidarPropSerialPort (.buffer h.next) s.length] ∨
     (set_property env h st (.SerialPort s)).calls =
        [.setOpt LidarProperty_LidarPropSerialPort (.buffer h.next) s.length,
          .describeError]) := by
  have hdd : dispatchProp env h st (.SerialPort s) =
      ⟨(h.alloc s).2.free st.lidar_port, { st with lidar_port := h.next },
        [.setOpt LidarProperty_LidarPropSerialPort (.buffer h.next) s.length],
        .ok (env.setOptOk LidarProperty_LidarPropSerialPort (.buffer h.next) s.length)⟩ :=
    set_string_property_port_eq env h st s hs
  refine ⟨?_, ?_, ?_⟩
  · rw [(set_property_heap_state env h st _).1, hdd]
  · rw [(set_property_heap_state env h st _).2, hdd]
  · have hc := set_property_calls_sub env h st (.SerialPort s)
    rw [hdd] at hc
    exact hc

/-- Helper: the pieces of set_property on a NUL-free ignore-array string. -/
theorem set_property_ignore_parts (env : NativeEnv) (h : Heap) (st : YdlidarState)
    (s : List Nat) (hs : 0 ∉ s) :
    (set_property env h st (.IgnoreArray s)).heap = (h.alloc s).2.free st.ignore_array ∧
    (set_property env h st (.IgnoreArray s)).state = { st with ignore_array := h.next } ∧
    ((set_property env h st (.IgnoreArray s)).calls =
        [.setOpt LidarProperty_LidarPropIgnoreArray (.buffer h.next) s.length] ∨
     (set_property env h st (.IgnoreArray s)).calls =
        [.setOpt LidarProperty_LidarPropIgnoreArray (.buffer h.next) s.length,
          .describeError]) := by
  have hdd : dispatchProp env h st (.IgnoreArray s) =
      ⟨(h.alloc s).2.free st.ignore_array, { st with ignore_array := h.next },
        [.setOpt LidarProperty_LidarPropIgnoreArray (.buffer h.next) s.length],
        .ok (env.setOptOk LidarProperty_LidarPropIgnoreArray (.buffer h.next) s.length)⟩ :=
    set_string_property_ignore_eq env h st s hs
  refine ⟨?_, ?_, ?_⟩
  · rw [(set_property_heap_state env h st _).1, hdd]
  · rw [(set_property_heap_state env h st _).2, hdd]
  · have hc := set_property_calls_sub env h st (.IgnoreArray s)
    rw [hdd] at hc
    exact hc

/-- Two successive serial-port sets on the same instance (first result, second
result). -/
def setPortTwice (env : NativeEnv) (h : Heap) (st : YdlidarState) (s1 s2 : List Nat) :
    StepResult (Except LidarError Unit) × StepResult (Except LidarError Unit) :=
  let r1 := set_property env h st (.SerialPort s1)
  (r1, set_property env r1.heap r1.state (.SerialPort s2))

/-- Two successive ignore-array sets on the same instance. -/
def setIgnoreTwice (env : NativeEnv) (h : Heap) (st : YdlidarState) (s1 s2 : List Nat) :
    StepResult (Except LidarError Unit) × StepResult (Except LidarError Unit) :=
  let r1 := set_property env h st (.IgnoreArray s1)
  (r1, set_property env r1.heap r1.state (.IgnoreArray s2))

/-- C1: for both string-valued properties, set_property replaces the owned
ConfigBuffer field before the native set-option call and passes the address of
the field's now-current buffer — never a stack temporary; and after setting the
same string property twice, the pointer the native layer retains (the last one
passed) dereferences in the final heap to the second string, never the first and
never freed memory. -/
theorem string_property_buffer_current
    (env : NativeEnv) (h : Heap) (st : YdlidarState) (s1 s2 : List Nat)
    (hn1 : 0 ∉ s1) (hn2 : 0 ∉ s2) :
    ((set_property env h st (.SerialPort s1)).calls.head? =
        some (.setOpt LidarProperty_LidarPropSerialPort
          (.buffer (set_property env h st (.SerialPort s1)).state.lidar_port)
          s1.length)) ∧
    ((set_property env h st (.IgnoreArray s1)).calls.head? =
        some (.setOpt LidarProperty_LidarPropIgnoreArray
          (.buffer (set_property env h st (.IgnoreArray s1)).state.ignore_array)
          s1.length)) ∧
    (retainedStrPtr LidarProperty_LidarPropSerialPort
        ((setPortTwice env h st s1 s2).1.calls ++ (setPortTwice env h st s1 s2).2.calls) =
      some (.buffer (setPortTwice env h st s1 s2).2.state.lidar_port) ∧
     derefRetained (setPortTwice env h st s1 s2).2.heap
        (.buffer (setPortTwice env h st s1 s2).2.state.lidar_port) = some s2) ∧
    (retainedStrPtr LidarProperty_LidarPropIgnoreArray
        ((setIgnoreTwice env h st s1 s2).1.calls ++ (setIgnoreTwice env h st s1 s2).2.calls) =
      some (.buffer (setIgnoreTwice env h st s1 s2).2.state.ignore_array) ∧
     derefRetained (setIgnoreTwice env h st s1 s2).2.heap
        (.buffer (setIgnoreTwice env h st s1 s2).2.state.ignore_array) = some s2) := by
  obtain ⟨hh1, hst1, hc1⟩ := set_property_port_parts env h st s1 hn1
  obtain ⟨ih1, ist1, ic1⟩ := set_property_ignore_parts env h st s1 hn1
  refine ⟨?_, ?_, ?_, ?_⟩
  · rw [hst1]
    rcases hc1 with hc | hc <;> rw [hc] <;> rfl
  · rw [ist1]
    rcases ic1 with hc | hc <;> rw [hc] <;> rfl
  · have e1 : (setPortTwice env h st s1 s2).1 = set_property env h st (.SerialPort s1) := rfl
    have e2 : (setPortTwice env h st s1 s2).2 =
        set_property env (set_property env h st (.SerialPort s1)).heap
          (set_property env h st (.SerialPort s1)).state (.SerialPort s2) := rfl
    obtain ⟨hh2, hst2, hc2⟩ := set_property_port_parts env
        (set_property env h st (.SerialPort s1)).heap
        (set_property env h st (.SerialPort s1)).state s2 hn2
    have hnext1 : (set_property env h st (.SerialPort s1)).heap.next = h.next + 1 := by
      rw [hh1]
      simp [Heap.alloc, Heap.free]
    have hport1 : (set_property env h st (.SerialPort s1)).state.lidar_port = h.next := by
      rw [hst1]
    have hid2 : (setPortTwice env h st s1 s2).2.state.lidar_port = h.next + 1 := by
      rw [e2, hst2]
      exact hnext1
    constructor
    · rw [hid2, e1, e2]
      rw [hnext1] at hc2
      rcases hc1 with hc | hc <;> rcases hc2 with hc' | hc' <;> rw [hc, hc'] <;>
        simp [retainedStrPtr, List.foldl_append]
    · rw [hid2, e2, hh2, hport1, hh1]
      simp [derefRetained, Heap.free, Heap.alloc, Nat.succ_ne_self]
  · have e1 : (setIgnoreTwice env h st s1 s2).1 = set_property env h st (.IgnoreArray s1) := rfl
    have e2 : (setIgnoreTwice env h st s1 s2).2 =
        set_property env (set_property env h st (.IgnoreArray s1)).heap
          (set_property env h st (.IgnoreArray s1)).state (.IgnoreArray s2) := rfl
    obtain ⟨hh2, hst2, hc2⟩ := set_property_ignore_parts env
        (set_property env h st (.IgnoreArray s1)).heap
        (set_property env h st (.IgnoreArray s1)).state s2 hn2
    have hnext1 : (set_property env h st (.IgnoreArray s1)).heap.next = h.next + 1 := by
      rw [ih1]
      simp [Heap.alloc, Heap.free]
    have hport1 : (set_property env h st (.IgnoreArray s1)).state.ignore_array = h.next := by
      rw [ist1]
    have hid2 : (setIgnoreTwice env h st s1 s2).2.state.ignore_array = h.next + 1 := by
      rw [e2, hst2]
      exact hnext1
    constructor
    · rw [hid2, e1, e2]
      rw [hnext1] at hc2
      rcases ic1 with hc | hc <;> rcases hc2 with hc' | hc' <;> rw [hc, hc'] <;>
        simp [retainedStrPtr, List.foldl_append]
    · rw [hid2, e2, hh2, hport1, ih1]
      simp [derefRetained, Heap.free, Heap.alloc, Nat.succ_ne_self]

/-- Witness for C1: setting the serial port to "a" then "b", the retained pointer
dereferences to "b". -/
theorem string_property_buffer_current_witness :
    retainedStrPtr LidarProperty_LidarPropSerialPort
        ((setPortTwice envW hW stW [97] [98]).1.calls ++
          (setPortTwice envW hW stW [97] [98]).2.calls) =
      some (.buffer (setPortTwice envW hW stW [97] [98]).2.state.lidar_port) ∧
    derefRetained (setPortTwice envW hW stW [97] [98]).2.heap
        (.buffer (setPortTwice envW hW stW [97] [98]).2.state.lidar_port) = some [98] :=
  (string_property_buffer_current envW hW stW [97] [98] (by decide) (by decide)).2.2.1

/-- Helper: the dispatched setter of a non-string property touches neither the
heap nor the wrapper state. -/
theorem dispatch_nonstring_id (env : NativeEnv) (h : Heap) (st : YdlidarState)
    (prop : LidarProperty) (hstr : isStringProp prop = false) :
    (dispatchProp env h st prop).heap = h ∧ (dispatchProp env h st prop).state = st := by
  cases prop <;>
    simp_all [isStringProp, dispatchProp, set_int_property, set_bool_property,
      set_float_property]

/-- C10: setting any non-string property leaves the whole heap and both buffer
fields untouched, and setting one string property leaves the other string
property's field and its buffer contents unchanged. -/
theorem set_property_frame (env : NativeEnv) (h : Heap) (st : YdlidarState)
    (hwp : st.lidar_port < h.next) (hwi : st.ignore_array < h.next)
    (hne : st.lidar_port ≠ st.ignore_array) :
    (∀ prop : LidarProperty, isStringProp prop = false →
      (set_property env h st prop).heap = h ∧
      (set_property env h st prop).state = st) ∧
    (∀ s : List Nat,
      (set_property env h st (.SerialPort s)).state.ignore_array = st.ignore_array ∧
      (set_property env h st (.SerialPort s)).heap.mem st.ignore_array =
        h.mem st.ignore_array) ∧
    (∀ s : List Nat,
      (set_property env h st (.IgnoreArray s)).state.lidar_port = st.lidar_port ∧
      (set_property env h st (.IgnoreArray s)).heap.mem st.lidar_port =
        h.mem st.lidar_port) := by
  refine ⟨?_, ?_, ?_⟩
  · intro prop hstr
    obtain ⟨hd1, hd2⟩ := dispatch_nonstring_id env h st prop hstr
    exact ⟨(set_property_heap_state env h st prop).1.trans hd1,
      (set_property_heap_state env h st prop).2.trans hd2⟩
  · intro s
    by_cases hnul : 0 ∈ s
    · have hdp : dispatchProp env h st (.SerialPort s) = ⟨h, st, [], .error nulPanicMsg⟩ := by
        simp [dispatchProp, set_string_property, cstringNew, hnul]
      constructor
      · rw [(set_property_heap_state env h st _).2, hdp]
      · rw [(set_property_heap_state env h st _).1, hdp]
    · obtain ⟨hh, hstt, _⟩ := set_property_port_parts env h st s hnul
      constructor
      · rw [hstt]
      · rw [hh]
        have h1 : st.ignore_array ≠ st.lidar_port := Ne.symm hne
        have h2 : st.ignore_array ≠ h.next := Nat.ne_of_lt hwi
        simp [Heap.alloc, Heap.free, h1, h2]
  · intro s
    by_cases hnul : 0 ∈ s
    · have hdp : dispatchProp env h st (.IgnoreArray s) = ⟨h, st, [], .error nulPanicMsg⟩ := by
        simp [dispatchProp, set_string_property, cstringNew, hnul,
          LidarProperty_LidarPropSerialPort, LidarProperty_LidarPropIgnoreArray]
      constructor
      · rw [(set_property_heap_state env h st _).2, hdp]
      · rw [(set_property_heap_state env h st _).1, hdp]
    · obtain ⟨hh, hstt, _⟩ := set_property_ignore_parts env h st s hnul
      constructor
      · rw [hstt]
      · rw [hh]
        have h2 : st.lidar_port ≠ h.next := Nat.ne_of_lt hwp
        simp [Heap.alloc, Heap.free, hne, h2]

/-- Witness for C10: a bool set leaves everything unchanged, and a serial-port set
leaves the ignore-array buffer unchanged. -/
theorem set_property_frame_witness :
    ((set_property envW hW stW (.Inverted true)).heap = hW ∧
     (set_property envW hW stW (.Inverted true)).state = stW) ∧
    ((set_property envW hW stW (.SerialPort [97])).state.ignore_array =
        stW.ignore_array ∧
     (set_property envW hW stW (.SerialPort [97])).heap.mem stW.ignore_array =
        hW.mem stW.ignore_array) :=
  ⟨(set_property_frame envW hW stW (by decide) (by decide) (by decide)).1
      (.Inverted true) rfl,
   (set_property_frame envW hW stW (by decide) (by decide) (by decide)).2.1 [97]⟩
